import Mathlib

/-!
Shallow embedding of the derived-state core of the biostar-central server
(src/main/server/const.py and src/main/server/models.py): the vote/award
apply-revert ledger, the post status machine, the revision log, and the
signal hooks, together with theorems checking the specification's claims.

Machine conventions: Django model rows become Lean structures; integer
columns are `Int`; foreign keys are `Nat` identifiers; the database is a
record of total maps / lists; `save()` writes the row fields of the
in-memory object back into the map.  Python attribute assignment to a
non-column name (for example `post_accepted` in `Vote.apply`) only mutates
the in-memory object and is therefore invisible to `save()`.
-/

namespace Biostar

/-! Constants from src/main/server/const.py -/

def POST_QUESTION : Nat := 1
def POST_ANSWER : Nat := 2
def POST_COMMENT : Nat := 3
def POST_GUIDE : Nat := 4
def POST_BLOG : Nat := 5
def POST_NEWS : Nat := 6
def POST_OTHER : Nat := 7

def NOTE_USER : Nat := 1
def NOTE_MODERATOR : Nat := 2
def NOTE_ADMIN : Nat := 3
def NOTE_AWARD : Nat := 4

def POST_OPEN : Nat := 100
def POST_CLOSED : Nat := 200
def POST_DELETED : Nat := 300
def POST_UNANSWERED : Nat := 400
def POST_ACCEPTED : Nat := 500

def REV_NONE : Nat := 1000
def REV_CLOSE : Nat := 1001
def REV_REOPEN : Nat := 1002
def REV_DELETE : Nat := 1003
def REV_UNDELETE : Nat := 1004

def VOTE_UP : Nat := 1
def VOTE_DOWN : Nat := 2
def VOTE_ACCEPT : Nat := 3
def VOTE_FAVORITE : Nat := 4

def BADGE_BRONZE : Nat := 0
def BADGE_SILVER : Nat := 1
def BADGE_GOLD : Nat := 2

/-- OPPOSING_VOTES dict: mutually exclusive vote pairs; `.get` semantics
give `none` for the other vote types. -/
def OPPOSING_VOTES (t : Nat) : Option Nat :=
  if t = VOTE_UP then some VOTE_DOWN
  else if t = VOTE_DOWN then some VOTE_UP
  else none

/-- POST_SCORE dict with `.get(type, 0)` semantics. -/
def POST_SCORE (t : Nat) : Int :=
  if t = VOTE_UP then 1 else if t = VOTE_DOWN then -1
  else if t = VOTE_FAVORITE then 2 else 0

/-- USER_REP dict with `.get(type, 0)` semantics. -/
def USER_REP (t : Nat) : Int :=
  if t = VOTE_UP then 10 else if t = VOTE_DOWN then -2
  else if t = VOTE_ACCEPT then 15 else 0

/-- VOTER_REP dict with `.get(type, 0)` semantics. -/
def VOTER_REP (t : Nat) : Int :=
  if t = VOTE_DOWN then -1 else if t = VOTE_ACCEPT then 2 else 0

/-! Data model from src/main/server/models.py -/

/-- Persisted columns of the Post model (the subset the core logic reads
or writes; timestamps and the rendered html are omitted as they never
feed back into the ledger, status machine or revision log). -/
structure PostRow where
  id : Nat
  author : Nat
  title : String
  content : String
  tag_val : String
  score : Int
  status : Nat
  type : Nat
  parent : Option Nat
  comment_count : Int
  answer_count : Int
  accepted : Bool
  lastedit_user : Nat
deriving DecidableEq

/-- An in-memory Post instance: the row columns plus the ad-hoc Python
attributes that Vote.apply assigns (`post_accepted` on the answer,
`answer_accepted` on the question).  These are not model columns: they are
`none` on a freshly loaded object, and `save()` does not persist them.
Reading one while it is `none` is an AttributeError in Python. -/
structure PostObj where
  row : PostRow
  post_accepted : Option Bool
  answer_accepted : Option Bool
deriving DecidableEq

/-- A Note row (dates omitted; `content` holds the composed text). -/
structure Note where
  sender : Nat
  target : Nat
  content : String
  type : Nat
  unread : Bool
deriving DecidableEq

/-- A Vote row: `author` is the voter, `post` the target post id. -/
structure Vote where
  author : Nat
  post : Nat
  type : Nat
deriving DecidableEq

/-- The persisted state that Vote.apply and moderator_action touch:
post rows by id, profile reputation scores by user id, and notes. -/
structure DB where
  posts : Nat → PostRow
  rep : Nat → Int
  notes : List Note

/-- Pointwise update of a map, the effect of saving one row. -/
def updf {α : Type} (f : Nat → α) (k : Nat) (v : α) : Nat → α :=
  fun n => if n = k then v else f n

/-- Vote.score: POST_SCORE.get(self.type, 0). -/
def Vote.score (v : Vote) : Int := POST_SCORE v.type

/-- Vote.reputation: USER_REP.get(self.type, 0). -/
def Vote.reputation (v : Vote) : Int := USER_REP v.type

/-- Vote.voter_reputation: VOTER_REP.get(self.type, 0). -/
def Vote.voter_reputation (v : Vote) : Int := VOTER_REP v.type

/-- Vote.apply(dir): applies the score and reputation changes of the vote.
Each `if` mirrors the truthiness guard in the source.  The accept branch
in the source assigns `answer.post_accepted` and `question.answer_accepted`,
neither of which is a model column, then calls `answer.save()` (which
writes only the row columns, so the written row equals the fetched one
since POST_SCORE has no accept entry) while `question.save()` is commented
out; hence the branch re-saves the answer row and persists nothing else. -/
def Vote.apply (v : Vote) (dir : Int) (db : DB) : DB :=
  let post := db.posts v.post
  let db1 := if v.reputation ≠ 0 then
    { db with rep := updf db.rep post.author (db.rep post.author + dir * v.reputation) }
    else db
  let db2 := if v.voter_reputation ≠ 0 then
    { db1 with rep := updf db1.rep v.author (db1.rep v.author + dir * v.voter_reputation) }
    else db1
  let post2 := if v.score ≠ 0 then { post with score := post.score + dir * v.score } else post
  let db3 := if v.score ≠ 0 then { db2 with posts := updf db2.posts v.post post2 } else db2
  let db4 := if v.type = VOTE_ACCEPT then { db3 with posts := updf db3.posts v.post post2 } else db3
  db4

/-- Post.set_status: the status recomputation rule.  The source reads
`self.answer_accepted`, a non-column attribute; when it is unset the read
raises AttributeError, modelled as `none`.  Note there is no final `else`
branch: when the answer count is nonzero and the flag is false the status
is left as it was. -/
def set_status (p : PostObj) : Option PostObj :=
  if p.row.answer_count = 0 then
    some { p with row := { p.row with status := POST_UNANSWERED } }
  else
    match p.answer_accepted with
    | none => none
    | some b => if b then some { p with row := { p.row with status := POST_ACCEPTED } } else some p

/-- moderator_action(post, user, action): sets the status for close and
delete, recomputes it otherwise, saves the post, then sends a moderator
Note to the post author.  The @transaction.commit_on_success decorator
makes the whole body atomic, modelled by the Option result: an exception
(for example the AttributeError inside set_status) yields `none` and no
state change.  `txt` stands for the externally composed notification text
(notegen.post_moderator_action, an out-of-scope collaborator). -/
def moderator_action (txt : String) (p : PostObj) (user action : Nat) (db : DB) : Option DB :=
  let upd := if action = REV_CLOSE then
      some { p with row := { p.row with status := POST_CLOSED } }
    else if action = REV_DELETE then
      some { p with row := { p.row with status := POST_DELETED } }
    else set_status p
  match upd with
  | none => none
  | some q =>
    let db1 : DB := { db with posts := updf db.posts q.row.id q.row }
    some { db1 with
           notes := { sender := user, target := p.row.author, content := txt,
                      type := NOTE_MODERATOR, unread := true } :: db1.notes }

/-! Revision log -/

/-- Post.combine: the canonical TITLE/content/TAGS snapshot used for
revision diffs. -/
def PostRow.combine (p : PostRow) : String :=
  "TITLE:" ++ p.title ++ "\n" ++ p.content ++ "\nTAGS:" ++ p.tag_val

/-- A PostRevision row (the date column is replaced by list order: the
revision list is kept newest first). -/
structure PostRevision where
  post : Nat
  diff : String
  content : String
  author : Nat
deriving DecidableEq

/-- Content of the most recent prior revision, or the empty string when
none exists (`last[0].content if last else ''`). -/
def prevContent (revs : List PostRevision) : String :=
  match revs.head? with
  | some r => r.content
  | none => ""

/-- create_revision(post): appends a revision when the combined snapshot
differs from the most recent prior revision's content.  `diffFn` stands
for difflib.unified_diff, the external Diff Engine applied to the prior
content and the new snapshot. -/
def create_revision (diffFn : String → String → String) (p : PostRow)
    (revs : List PostRevision) : List PostRevision :=
  let content := p.combine
  let prev := prevContent revs
  if content ≠ prev then
    { post := p.id, diff := diffFn prev content, content := content,
      author := p.lastedit_user } :: revs
  else revs

/-- finalize_post post-save hook, revision arm: `create_revision` runs
only when the instance type is a question or an answer.  (The `created`
notification arm touches only Note state and is independent of the
revision log.) -/
def finalize_post (diffFn : String → String → String) (p : PostRow)
    (revs : List PostRevision) : List PostRevision :=
  if p.type = POST_QUESTION ∨ p.type = POST_ANSWER then create_revision diffFn p revs
  else revs

/-! Awards -/

/-- A Badge row. -/
structure Badge where
  name : String
  type : Nat
  unique : Bool
  count : Int
deriving DecidableEq

/-- An Award row (badge referenced by name, as Badge.objects.get does). -/
structure Award where
  badge : String
  user : Nat
deriving DecidableEq

/-- The badge-related columns of UserProfile. -/
structure Profile where
  score : Int
  bronze_badges : Int
  silver_badges : Int
  gold_badges : Int
deriving DecidableEq

/-- Persisted state touched by the award ledger.  `notes` records
(target, content) of notifications sent. -/
structure AwardState where
  badges : List Badge
  awards : List Award
  profiles : Nat → Profile
  notes : List (Nat × String)

/-- Award.apply(dir): adjusts the recipient's tier badge counter and the
badge's global count.  The badge row is saved back by name. -/
def Award.apply (a : Award) (b : Badge) (dir : Int) (s : AwardState) : AwardState :=
  let prof := s.profiles a.user
  let prof := if b.type = BADGE_BRONZE then { prof with bronze_badges := prof.bronze_badges + dir } else prof
  let prof := if b.type = BADGE_SILVER then { prof with silver_badges := prof.silver_badges + dir } else prof
  let prof := if b.type = BADGE_GOLD then { prof with gold_badges := prof.gold_badges + dir } else prof
  let s1 := { s with profiles := updf s.profiles a.user prof }
  { s1 with badges := s1.badges.map (fun bb =>
      if bb.name = b.name then { bb with count := bb.count + dir } else bb) }

/-- apply_award(request, user, badge_name): looks up the badge (a missing
badge raises Badge.DoesNotExist, the error case), and when the badge is
unique and a live Award already exists it returns early — silently, with
no state change and no error.  Otherwise it creates the Award (whose
post-save signal runs Award.apply(+1)) and sends the recipient a note.
The note text composition (notegen.badgenote) and the note dispatch are
the spec's external Notification collaborator; `noticeText` stands for
the composed text.  Modelled from the spec: the `Note.send` call used on
the success path is not defined under src/, so note creation follows the
spec's §6 interface (create one note record for the recipient). -/
def apply_award (s : AwardState) (user : Nat) (badge_name : String)
    (noticeText : String) : Except String AwardState :=
  match s.badges.find? (fun b => b.name = badge_name) with
  | none => .error "Badge matching query does not exist"
  | some badge =>
    let existing := s.awards.filter (fun a => a.badge = badge_name && a.user = user)
    if !existing.isEmpty && badge.unique then
      .ok s
    else
      let a : Award := { badge := badge_name, user := user }
      let s1 := { s with awards := a :: s.awards }
      let s2 := Award.apply a badge 1 s1
      .ok { s2 with notes := (user, noticeText) :: s2.notes }

/-! Tags -/

/-- A Tag row. -/
structure Tag where
  name : String
  count : Int
deriving DecidableEq

/-- tag_created post-save hook: zero out the count of a newly created Tag
instance (the nested save re-enters with the signal disconnected, so the
net effect is the single field reset). -/
def tag_created (created : Bool) (t : Tag) : Tag :=
  if created ∧ t.count ≠ 0 then { t with count := 0 } else t

/-! Vote rows and the opposing-vote invariant -/

/-- Row predicate matching a vote by voter, post and type. -/
def voteMatch (u p t : Nat) (v : Vote) : Bool :=
  v.author == u && v.post == p && v.type == t

/-- Post.get_vote(user, vote_type): the user's vote of that type on this
post, if any (Django `.get` assumes at most one matching row; on the
reachable states below at most one exists, so the first match is exact). -/
def get_vote (u p t : Nat) (s : List Vote) : Option Vote :=
  s.find? (voteMatch u p t)

/-- Post.add_vote(user, vote_type): creates and saves a new Vote row. -/
def add_vote (u p t : Nat) (s : List Vote) : List Vote :=
  { author := u, post := p, type := t } :: s

/-- Post.remove_vote(user, vote_type): deletes the user's vote of that
type if it exists; returns the new rows and whether one was removed. -/
def remove_vote (u p t : Nat) (s : List Vote) : List Vote × Bool :=
  match get_vote u p t s with
  | some _ => (s.eraseP (voteMatch u p t), true)
  | none => (s, false)

/-- Modelled from the spec: the vote-casting handler is not under src/
(only the OPPOSING_VOTES table and the add_vote/remove_vote primitives
are).  Per the spec, casting is invoked once per vote creation (the
dispatcher never applies the same vote twice, so an already-held vote of
the same type is not re-added), and adding one member of an opposing
pair while the other is held first removes the existing opposing vote. -/
def cast_vote (u p t : Nat) (s : List Vote) : List Vote :=
  if (get_vote u p t s).isSome then s
  else
    let s1 := match OPPOSING_VOTES t with
      | some opp => (remove_vote u p opp s).1
      | none => s
    add_vote u p t s1

/-- Combined number of upvote and downvote rows a user holds on a post;
the mutual-exclusion invariant is pairCnt ≤ 1. -/
def pairCnt (u p : Nat) (s : List Vote) : Nat :=
  s.countP (voteMatch u p VOTE_UP) + s.countP (voteMatch u p VOTE_DOWN)

/-- Vote states reachable from the empty table by casting and removing
votes. -/
inductive Reachable : List Vote → Prop where
  | init : Reachable []
  | cast (u p t : Nat) {s : List Vote} : Reachable s → Reachable (cast_vote u p t s)
  | remove (u p t : Nat) {s : List Vote} : Reachable s → Reachable ((remove_vote u p t s).1)

/-! Concrete instances used by witnesses and counterexamples -/

/-- A default post row. -/
def row0 : PostRow :=
  { id := 0, author := 0, title := "", content := "", tag_val := "", score := 0,
    status := POST_OPEN, type := POST_QUESTION, parent := none,
    comment_count := 0, answer_count := 0, accepted := false, lastedit_user := 0 }

/-- A question (post 1, author 3) with one answer. -/
def question0 : PostRow :=
  { row0 with id := 1, author := 3, title := "q", content := "c", answer_count := 1 }

/-- An answer (post 2, author 3) to question 1. -/
def answer0 : PostRow :=
  { row0 with id := 2, author := 3, type := POST_ANSWER, parent := some 1, content := "a" }

/-- A small database holding the question and the answer. -/
def db0 : DB :=
  { posts := fun n => if n = 1 then question0 else if n = 2 then answer0 else row0,
    rep := fun _ => 0, notes := [] }

/-- User 5 accepts answer 2. -/
def acceptVote : Vote := { author := 5, post := 2, type := VOTE_ACCEPT }

/-- User 5 upvotes question 1. -/
def upVote : Vote := { author := 5, post := 1, type := VOTE_UP }

/-- An in-memory closed question with one unaccepted answer. -/
def closedQuestion : PostObj :=
  { row := { row0 with id := 1, author := 3, status := POST_CLOSED, answer_count := 1 },
    post_accepted := none, answer_accepted := some false }

/-- An in-memory question with no answers and no acceptance attribute. -/
def freshQuestion : PostObj :=
  { row := { row0 with id := 4, author := 3 }, post_accepted := none, answer_accepted := none }

/-- An in-memory open post. -/
def openPost : PostObj :=
  { row := { row0 with id := 1, author := 3 }, post_accepted := none, answer_accepted := none }

/-- A database with default rows and no notes. -/
def db1 : DB := { posts := fun _ => row0, rep := fun _ => 0, notes := [] }

/-- A comment post with nonempty content. -/
def comment0 : PostRow :=
  { row0 with id := 5, author := 4, type := POST_COMMENT, content := "hello" }

/-- A unique bronze badge already awarded once. -/
def betaBadge : Badge := { name := "beta", type := BADGE_BRONZE, unique := true, count := 1 }

/-- Award state in which user 7 already holds the unique beta badge. -/
def awardState0 : AwardState :=
  { badges := [betaBadge], awards := [{ badge := "beta", user := 7 }],
    profiles := fun _ => { score := 0, bronze_badges := 0, silver_badges := 0, gold_badges := 0 },
    notes := [] }

/-! Theorems about the claims -/

/-- Any successful set_status preserves the post id. -/
theorem set_status_id {p q : PostObj} (h : set_status p = some q) : q.row.id = p.row.id := by
  unfold set_status at h
  split at h
  · injection h with h; subst h; rfl
  · split at h
    · exact absurd h (by simp)
    · split at h
      · injection h with h; subst h; rfl
      · injection h with h; subst h; rfl

/-- C1: applying a vote with direction dir adds dir times the ledger-rule
deltas of its type to the post score, the post author's reputation and the
voter's reputation; the per-type deltas are upvote (+1, +10, 0), downvote
(-1, -2, -1), favorite (+2, 0, 0) and accept (0, +15, +2).  The voter is
assumed distinct from the post author so that the two reputation cells are
distinct. -/
theorem vote_apply_deltas (db : DB) (v : Vote) (dir : Int)
    (hav : (db.posts v.post).author ≠ v.author) :
    (((v.apply dir db).posts v.post).score
        = (db.posts v.post).score + dir * POST_SCORE v.type) ∧
    ((v.apply dir db).rep (db.posts v.post).author
        = db.rep (db.posts v.post).author + dir * USER_REP v.type) ∧
    ((v.apply dir db).rep v.author = db.rep v.author + dir * VOTER_REP v.type) ∧
    (POST_SCORE VOTE_UP = 1 ∧ USER_REP VOTE_UP = 10 ∧ VOTER_REP VOTE_UP = 0) ∧
    (POST_SCORE VOTE_DOWN = -1 ∧ USER_REP VOTE_DOWN = -2 ∧ VOTER_REP VOTE_DOWN = -1) ∧
    (POST_SCORE VOTE_FAVORITE = 2 ∧ USER_REP VOTE_FAVORITE = 0 ∧ VOTER_REP VOTE_FAVORITE = 0) ∧
    (POST_SCORE VOTE_ACCEPT = 0 ∧ USER_REP VOTE_ACCEPT = 15 ∧ VOTER_REP VOTE_ACCEPT = 2) := by
  have hav2 : v.author ≠ (db.posts v.post).author := Ne.symm hav
  refine ⟨?_, ?_, ?_, by decide, by decide, by decide, by decide⟩ <;>
  · simp only [Vote.apply, Vote.score, Vote.reputation, Vote.voter_reputation]
    split_ifs <;> simp_all [updf]

/-- Witness for C1 at a concrete upvote. -/
theorem vote_apply_deltas_witness :
    ((Vote.apply upVote 1 db0).posts 1).score = (db0.posts 1).score + 1 * POST_SCORE VOTE_UP ∧
    (Vote.apply upVote 1 db0).rep 3 = db0.rep 3 + 1 * USER_REP VOTE_UP ∧
    (Vote.apply upVote 1 db0).rep 5 = db0.rep 5 + 1 * VOTER_REP VOTE_UP :=
  ⟨(vote_apply_deltas db0 upVote 1 (by decide)).1,
   (vote_apply_deltas db0 upVote 1 (by decide)).2.1,
   (vote_apply_deltas db0 upVote 1 (by decide)).2.2.1⟩

/-- C2: applying a vote with direction +1 and then with direction -1
returns the post score, the post author's reputation and the voter's
reputation exactly to their starting values. -/
theorem vote_apply_roundtrip (db : DB) (v : Vote) :
    (((v.apply (-1) (v.apply 1 db)).posts v.post).score = (db.posts v.post).score) ∧
    ((v.apply (-1) (v.apply 1 db)).rep (db.posts v.post).author
        = db.rep (db.posts v.post).author) ∧
    ((v.apply (-1) (v.apply 1 db)).rep v.author = db.rep v.author) := by
  by_cases hR : v.reputation = 0 <;> by_cases hV : v.voter_reputation = 0 <;>
    by_cases hS : v.score = 0 <;> by_cases hA : v.type = VOTE_ACCEPT <;>
  · refine ⟨?_, ?_, ?_⟩ <;>
    · simp [Vote.apply, hR, hV, hS, hA, updf]
      try (split_ifs <;> simp_all <;> try omega)

/-- C3: evaluating the code at the failing input — an accept vote applied
with direction +1 on answer 2 (author 3, parent question 1), with both
persisted accepted flags false.  The reputation deltas land (author +15,
voter +2), but the answer row's persisted `accepted` column stays false
and the question row is entirely unchanged: the source assigns the
non-column attributes `post_accepted` and `answer_accepted` and has
`question.save()` commented out, so no acceptance flag reaches persisted
state. -/
theorem accept_vote_not_persisted :
    ((Vote.apply acceptVote 1 db0).posts 2).accepted = false ∧
    (Vote.apply acceptVote 1 db0).posts 1 = db0.posts 1 ∧
    (Vote.apply acceptVote 1 db0).rep 3 = 15 ∧
    (Vote.apply acceptVote 1 db0).rep 5 = 2 := by
  decide

/-- C4 counterexample: a REOPEN moderation action on a closed question
with one answer and a false acceptance flag leaves the persisted status
CLOSED; the claim says the recomputation must yield OPEN. -/
theorem set_status_reopen_cex :
    (moderator_action "t" closedQuestion 9 REV_REOPEN db1).map (fun d => (d.posts 1).status)
      = some POST_CLOSED ∧ POST_CLOSED ≠ POST_OPEN := by
  decide

/-- C4 amended: when the recomputation rule runs (any action other than
close and delete, in particular REOPEN, UNDELETE or none) the resulting
status is UNANSWERED when the answer count is zero; otherwise ACCEPTED
when the acceptance flag is true; otherwise the status is left unchanged
(the source has no final else branch that would set OPEN).  The flag is
assumed readable (set as an attribute, or irrelevant because the answer
count is zero); reading an absent flag aborts the transaction. -/
theorem set_status_recompute (txt : String) (p : PostObj) (u a : Nat) (db : DB) (b : Bool)
    (h1 : a ≠ REV_CLOSE) (h2 : a ≠ REV_DELETE)
    (h3 : p.row.answer_count = 0 ∨ p.answer_accepted = some b) :
    (moderator_action txt p u a db).map (fun d => (d.posts p.row.id).status)
      = some (if p.row.answer_count = 0 then POST_UNANSWERED
              else if b then POST_ACCEPTED else p.row.status) := by
  by_cases hc : p.row.answer_count = 0 <;> rcases h3 with h3 | h3 <;> by_cases hb : b <;>
    simp [moderator_action, set_status, h1, h2, h3, hc, hb, updf]

/-- Witness for C4's amended rule: a no-op action on a question with no
answers recomputes the status to UNANSWERED. -/
theorem set_status_recompute_witness :
    (moderator_action "t" freshQuestion 9 REV_NONE db1).map (fun d => (d.posts 4).status)
      = some POST_UNANSWERED :=
  set_status_recompute "t" freshQuestion 9 REV_NONE db1 false
    (by decide) (by decide) (Or.inl (by decide))

/-- C8: a moderator action sets the status to CLOSED for a close action
and to DELETED for a delete action, recomputes it through set_status for
any other action, and whenever it commits it creates exactly one Note
addressed to the post's author together with the saved status change (the
transaction is all-or-nothing: an aborted recomputation yields no state at
all). -/
theorem moderator_action_spec (txt : String) (p : PostObj) (u a : Nat) (db : DB) :
    (∀ d, moderator_action txt p u a db = some d →
        d.notes = { sender := u, target := p.row.author, content := txt,
                    type := NOTE_MODERATOR, unread := true } :: db.notes) ∧
    (a = REV_CLOSE →
        (moderator_action txt p u a db).map (fun d => (d.posts p.row.id).status)
          = some POST_CLOSED) ∧
    (a = REV_DELETE →
        (moderator_action txt p u a db).map (fun d => (d.posts p.row.id).status)
          = some POST_DELETED) ∧
    (a ≠ REV_CLOSE → a ≠ REV_DELETE →
        (moderator_action txt p u a db).map (fun d => (d.posts p.row.id).status)
          = (set_status p).map (fun q => q.row.status)) := by
  refine ⟨?_, ?_, ?_, ?_⟩
  · intro d h
    by_cases hc : a = REV_CLOSE
    · simp [moderator_action, hc] at h
      subst h; rfl
    · by_cases hd : a = REV_DELETE
      · simp [moderator_action, hc, hd, REV_CLOSE, REV_DELETE] at h
        subst h; rfl
      · cases hs : set_status p with
        | none => simp [moderator_action, hc, hd, hs] at h
        | some q =>
          simp [moderator_action, hc, hd, hs] at h
          subst h; rfl
  · intro hc; simp [moderator_action, hc, updf]
  · intro hd
    have hc : a ≠ REV_CLOSE := by subst hd; decide
    simp [moderator_action, hc, hd, REV_CLOSE, REV_DELETE, updf]
  · intro hc hd
    cases hs : set_status p with
    | none => simp [moderator_action, hc, hd, hs]
    | some q =>
      have hid := set_status_id hs
      simp [moderator_action, hc, hd, hs, hid, updf]

/-- Witness for C8: closing an open post persists status CLOSED and
creates exactly one moderator Note to the author. -/
theorem moderator_action_spec_witness :
    (moderator_action "t" openPost 9 REV_CLOSE db1).map (fun d => (d.posts 1).status)
      = some POST_CLOSED ∧
    (moderator_action "t" openPost 9 REV_CLOSE db1).map (fun d => d.notes)
      = some [{ sender := 9, target := 3, content := "t",
                type := NOTE_MODERATOR, unread := true }] := by
  constructor
  · exact (moderator_action_spec "t" openPost 9 REV_CLOSE db1).2.1 rfl
  · obtain ⟨d, hd⟩ : ∃ d, moderator_action "t" openPost 9 REV_CLOSE db1 = some d := ⟨_, rfl⟩
    have hn := (moderator_action_spec "t" openPost 9 REV_CLOSE db1).1 d hd
    rw [hd]
    simp [hn, openPost, row0, db1]

/-- C5 counterexample: awarding the unique beta badge to user 7, who
already holds a live Award for it, returns success with the state
completely unchanged — a silent no-op, not a reported failure. -/
theorem apply_award_duplicate_cex :
    apply_award awardState0 7 "beta" "n" = .ok awardState0 := by
  rfl

/-- C5 amended: when the badge is unique and a live Award already exists
for the (badge, user) pair, apply_award silently returns success with no
side effect — no award row, no counter change, no note, and no reported
failure. -/
theorem apply_award_duplicate_noop (s : AwardState) (u : Nat) (bn txt : String) (b : Badge)
    (hf : s.badges.find? (fun x => x.name = bn) = some b)
    (hu : b.unique = true)
    (he : (s.awards.filter (fun a => a.badge = bn && a.user = u)).isEmpty = false) :
    apply_award s u bn txt = .ok s := by
  simp [apply_award, hf, hu, he]

/-- Witness for C5's amended rule at the concrete duplicate award. -/
theorem apply_award_duplicate_noop_witness :
    apply_award awardState0 7 "beta" "n" = .ok awardState0 :=
  apply_award_duplicate_noop awardState0 7 "beta" "n" betaBadge rfl rfl (by decide)

/-- C6: a revision is created iff the combined snapshot differs from the
most recent prior revision's stored content (the empty string when no
prior revision exists); the created revision's diff is the diff engine's
output on the prior content and the new snapshot; and a re-save with an
unchanged snapshot writes no further revision (idempotence). -/
theorem create_revision_spec (diffFn : String → String → String) (p : PostRow)
    (revs : List PostRevision) :
    (p.combine = prevContent revs → create_revision diffFn p revs = revs) ∧
    (p.combine ≠ prevContent revs →
        create_revision diffFn p revs
          = { post := p.id, diff := diffFn (prevContent revs) p.combine,
              content := p.combine, author := p.lastedit_user } :: revs) ∧
    create_revision diffFn p (create_revision diffFn p revs)
      = create_revision diffFn p revs := by
  refine ⟨?_, ?_, ?_⟩
  · intro h; simp [create_revision, h]
  · intro h; simp [create_revision, h]
  · by_cases h : p.combine = prevContent revs
    · simp [create_revision, h]
    · have e1 : create_revision diffFn p revs
          = { post := p.id, diff := diffFn (prevContent revs) p.combine,
              content := p.combine, author := p.lastedit_user } :: revs := by
        simp [create_revision, h]
      have e2 : prevContent
          (({ post := p.id, diff := diffFn (prevContent revs) p.combine,
              content := p.combine, author := p.lastedit_user } : PostRevision) :: revs)
          = p.combine := rfl
      rw [e1]
      simp [create_revision, e2]

/-- Witness for C6: saving a question with no prior revision creates the
revision with the diff of the empty string against the snapshot. -/
theorem create_revision_spec_witness :
    create_revision (fun a b => a ++ b) question0 []
      = [{ post := 1, diff := "" ++ question0.combine,
           content := question0.combine, author := 0 }] :=
  (create_revision_spec (fun a b => a ++ b) question0 []).2.1 (by decide)

/-- C7 counterexample: a comment post whose combined snapshot differs
from the (empty) prior revision content gains no revision on save — the
post-save hook runs create_revision only for questions and answers. -/
theorem finalize_post_comment_cex :
    finalize_post (fun a b => a ++ b) comment0 [] = [] ∧
    comment0.combine ≠ prevContent [] := by
  constructor
  · rfl
  · decide

/-- C7 amended: the snapshot/revision step runs exactly for posts of type
question or answer; a save of any other post type (comment, guide, blog,
news, other) never touches the revision log. -/
theorem finalize_post_revision_types (diffFn : String → String → String)
    (p : PostRow) (revs : List PostRevision) :
    (p.type = POST_QUESTION ∨ p.type = POST_ANSWER →
        finalize_post diffFn p revs = create_revision diffFn p revs) ∧
    (p.type ≠ POST_QUESTION → p.type ≠ POST_ANSWER →
        finalize_post diffFn p revs = revs) := by
  constructor
  · intro h; simp [finalize_post, h]
  · intro h1 h2; simp [finalize_post, h1, h2]

/-- Witness for C7's amended rule: saving an answer runs the revision
step. -/
theorem finalize_post_revision_types_witness :
    finalize_post (fun a b => a ++ b) answer0 []
      = create_revision (fun a b => a ++ b) answer0 [] :=
  (finalize_post_revision_types (fun a b => a ++ b) answer0 []).1 (Or.inr (by decide))

/-- C10: immediately after a Tag instance is first created and persisted,
its count is 0, even when it was constructed with a nonzero count — the
post-save creation hook resets any nonzero count. -/
theorem tag_created_zero (t : Tag) : (tag_created true t).count = 0 := by
  by_cases h : t.count = 0 <;> simp [tag_created, h]

/-- Erasing a found match lowers the match count by exactly one. -/
theorem countP_eraseP_found {q : Vote → Bool} :
    ∀ {s : List Vote}, (s.find? q).isSome = true →
      (s.eraseP q).countP q + 1 = s.countP q := by
  intro s
  induction s with
  | nil => intro h; simp at h
  | cons a l ih =>
    intro h
    by_cases ha : q a
    · simp [List.eraseP_cons, ha, List.countP_cons]
    · have h2 : (l.find? q).isSome = true := by
        rw [List.find?_cons_of_neg _ ha] at h
        exact h
      have h3 := ih h2
      simp [List.eraseP_cons, ha, List.countP_cons]
      omega

/-- A user with no vote of a type on a post has a zero match count. -/
theorem get_vote_none_countP {u p t : Nat} {s : List Vote}
    (h : get_vote u p t s = none) : s.countP (voteMatch u p t) = 0 := by
  rw [List.countP_eq_zero]
  intro v hv
  exact List.find?_eq_none.mp h v hv

/-- remove_vote never increases any match count. -/
theorem countP_remove_le (u p t : Nat) (q : Vote → Bool) (s : List Vote) :
    ((remove_vote u p t s).1).countP q ≤ s.countP q := by
  unfold remove_vote
  cases hf : get_vote u p t s with
  | none => simp
  | some v => simpa using (List.eraseP_sublist s).countP_le q

/-- When the vote to remove exists, remove_vote lowers its match count by
exactly one. -/
theorem countP_remove_found (u p t : Nat) (s : List Vote) (v : Vote)
    (hf : get_vote u p t s = some v) :
    ((remove_vote u p t s).1).countP (voteMatch u p t) + 1
      = s.countP (voteMatch u p t) := by
  have hs : (s.find? (voteMatch u p t)).isSome = true := by
    unfold get_vote at hf
    simp [hf]
  unfold remove_vote
  rw [hf]
  simpa using countP_eraseP_found hs

/-- Match count of a freshly added vote row. -/
theorem countP_add_vote (u p t a b tt : Nat) (s : List Vote) :
    (add_vote u p t s).countP (voteMatch a b tt)
      = s.countP (voteMatch a b tt) + if u = a ∧ p = b ∧ t = tt then 1 else 0 := by
  by_cases hc : u = a ∧ p = b ∧ t = tt
  · obtain ⟨rfl, rfl, rfl⟩ := hc
    simp [add_vote, List.countP_cons, voteMatch]
  · simp [add_vote, List.countP_cons, voteMatch, hc]
    intro h1 h2 h3
    exact absurd ⟨h1, h2, h3⟩ hc

/-- remove_vote preserves the mutual-exclusion invariant. -/
theorem inv_remove (u p t : Nat) (s : List Vote)
    (h : ∀ a b, pairCnt a b s ≤ 1) :
    ∀ a b, pairCnt a b ((remove_vote u p t s).1) ≤ 1 := by
  intro a b
  have h1 := countP_remove_le u p t (voteMatch a b VOTE_UP) s
  have h2 := countP_remove_le u p t (voteMatch a b VOTE_DOWN) s
  have h3 := h a b
  unfold pairCnt at h3 ⊢
  omega

/-- cast_vote when the same vote is already held: no change. -/
theorem cast_vote_held (u p t : Nat) (s : List Vote)
    (hg : (get_vote u p t s).isSome = true) : cast_vote u p t s = s := by
  unfold cast_vote
  simp [hg]

/-- cast_vote when the vote is new and its type has no opposing type. -/
theorem cast_vote_none (u p t : Nat) (s : List Vote)
    (hgn : get_vote u p t s = none) (hoo : OPPOSING_VOTES t = none) :
    cast_vote u p t s = add_vote u p t s := by
  unfold cast_vote
  simp [hgn, hoo]

/-- cast_vote when the vote is new and its type has an opposing type:
the opposing vote is removed first. -/
theorem cast_vote_some (u p t opp : Nat) (s : List Vote)
    (hgn : get_vote u p t s = none) (hoo : OPPOSING_VOTES t = some opp) :
    cast_vote u p t s = add_vote u p t ((remove_vote u p opp s).1) := by
  unfold cast_vote
  simp [hgn, hoo]

/-- cast_vote preserves the mutual-exclusion invariant. -/
theorem inv_cast (u p t : Nat) (s : List Vote)
    (h : ∀ a b, pairCnt a b s ≤ 1) :
    ∀ a b, pairCnt a b (cast_vote u p t s) ≤ 1 := by
  intro a b
  by_cases hg : (get_vote u p t s).isSome = true
  · rw [cast_vote_held u p t s hg]
    exact h a b
  · have hgn : get_vote u p t s = none := by
      cases hgv : get_vote u p t s with
      | none => rfl
      | some v => exact absurd (by simp [hgv]) hg
    have hg0 : s.countP (voteMatch u p t) = 0 := get_vote_none_countP hgn
    by_cases htu : t = VOTE_UP
    · subst htu
      rw [cast_vote_some u p VOTE_UP VOTE_DOWN s hgn rfl]
      by_cases hab : u = a ∧ p = b
      · obtain ⟨rfl, rfl⟩ := hab
        unfold pairCnt
        rw [countP_add_vote, countP_add_vote]
        have e1 : (if u = u ∧ p = p ∧ VOTE_UP = VOTE_UP then 1 else 0) = 1 := by simp
        have e2 : (if u = u ∧ p = p ∧ VOTE_UP = VOTE_DOWN then 1 else 0) = 0 := by
          simp [VOTE_UP, VOTE_DOWN]
        rw [e1, e2]
        have hrup := countP_remove_le u p VOTE_DOWN (voteMatch u p VOTE_UP) s
        cases hf : get_vote u p VOTE_DOWN s with
        | none =>
          have hs1 : (remove_vote u p VOTE_DOWN s).1 = s := by
            unfold remove_vote
            rw [hf]
          have hd0 := get_vote_none_countP hf
          rw [hs1]
          omega
        | some v =>
          have hrem := countP_remove_found u p VOTE_DOWN s v hf
          have hd1 : s.countP (voteMatch u p VOTE_DOWN) ≤ 1 := by
            have h3 := h u p
            unfold pairCnt at h3
            omega
          omega
      · unfold pairCnt
        rw [countP_add_vote, countP_add_vote]
        have hnc1 : ¬(u = a ∧ p = b ∧ VOTE_UP = VOTE_UP) := fun hc => hab ⟨hc.1, hc.2.1⟩
        have hnc2 : ¬(u = a ∧ p = b ∧ VOTE_UP = VOTE_DOWN) := fun hc => hab ⟨hc.1, hc.2.1⟩
        have e1 : (if u = a ∧ p = b ∧ VOTE_UP = VOTE_UP then 1 else 0) = 0 := if_neg hnc1
        have e2 : (if u = a ∧ p = b ∧ VOTE_UP = VOTE_DOWN then 1 else 0) = 0 := if_neg hnc2
        rw [e1, e2]
        have r1 := countP_remove_le u p VOTE_DOWN (voteMatch a b VOTE_UP) s
        have r2 := countP_remove_le u p VOTE_DOWN (voteMatch a b VOTE_DOWN) s
        have h3 := h a b
        unfold pairCnt at h3
        omega
    · by_cases htd : t = VOTE_DOWN
      · subst htd
        rw [cast_vote_some u p VOTE_DOWN VOTE_UP s hgn rfl]
        by_cases hab : u = a ∧ p = b
        · obtain ⟨rfl, rfl⟩ := hab
          unfold pairCnt
          rw [countP_add_vote, countP_add_vote]
          have e1 : (if u = u ∧ p = p ∧ VOTE_DOWN = VOTE_UP then 1 else 0) = 0 := by
            simp [VOTE_UP, VOTE_DOWN]
          have e2 : (if u = u ∧ p = p ∧ VOTE_DOWN = VOTE_DOWN then 1 else 0) = 1 := by simp
          rw [e1, e2]
          have hrdn := countP_remove_le u p VOTE_UP (voteMatch u p VOTE_DOWN) s
          cases hf : get_vote u p VOTE_UP s with
          | none =>
            have hs1 : (remove_vote u p VOTE_UP s).1 = s := by
              unfold remove_vote
              rw [hf]
            have hu0 := get_vote_none_countP hf
            rw [hs1]
            omega
          | some v =>
            have hrem := countP_remove_found u p VOTE_UP s v hf
            have hu1 : s.countP (voteMatch u p VOTE_UP) ≤ 1 := by
              have h3 := h u p
              unfold pairCnt at h3
              omega
            omega
        · unfold pairCnt
          rw [countP_add_vote, countP_add_vote]
          have hnc1 : ¬(u = a ∧ p = b ∧ VOTE_DOWN = VOTE_UP) := fun hc => hab ⟨hc.1, hc.2.1⟩
          have hnc2 : ¬(u = a ∧ p = b ∧ VOTE_DOWN = VOTE_DOWN) := fun hc => hab ⟨hc.1, hc.2.1⟩
          have e1 : (if u = a ∧ p = b ∧ VOTE_DOWN = VOTE_UP then 1 else 0) = 0 := if_neg hnc1
          have e2 : (if u = a ∧ p = b ∧ VOTE_DOWN = VOTE_DOWN then 1 else 0) = 0 := if_neg hnc2
          rw [e1, e2]
          have r1 := countP_remove_le u p VOTE_UP (voteMatch a b VOTE_UP) s
          have r2 := countP_remove_le u p VOTE_UP (voteMatch a b VOTE_DOWN) s
          have h3 := h a b
          unfold pairCnt at h3
          omega
      · have hoo : OPPOSING_VOTES t = none := by
          simp [OPPOSING_VOTES, htu, htd]
        rw [cast_vote_none u p t s hgn hoo]
        unfold pairCnt
        rw [countP_add_vote, countP_add_vote]
        have e1 : (if u = a ∧ p = b ∧ t = VOTE_UP then 1 else 0) = 0 := by
          simp [htu]
        have e2 : (if u = a ∧ p = b ∧ t = VOTE_DOWN then 1 else 0) = 0 := by
          simp [htd]
        rw [e1, e2]
        have h3 := h a b
        unfold pairCnt at h3
        omega

/-- Every reachable vote state satisfies the mutual-exclusion invariant. -/
theorem reachable_pairCnt {s : List Vote} (h : Reachable s) :
    ∀ a b, pairCnt a b s ≤ 1 := by
  induction h with
  | init => intro a b; simp [pairCnt]
  | cast u p t _ ih => exact inv_cast u p t _ ih
  | remove u p t _ ih => exact inv_remove u p t _ ih

/-- C9: in every state reachable by vote casts and removals, no user
simultaneously holds an upvote and a downvote on the same post; and
casting an upvote while holding a downvote on the post removes the
downvote (and symmetrically by the invariant). -/
theorem opposing_votes_exclusive (s : List Vote) (h : Reachable s) (u p : Nat) :
    (¬(s.any (voteMatch u p VOTE_UP) = true ∧ s.any (voteMatch u p VOTE_DOWN) = true)) ∧
    (s.any (voteMatch u p VOTE_DOWN) = true →
        (cast_vote u p VOTE_UP s).any (voteMatch u p VOTE_DOWN) = false) := by
  have hinv := reachable_pairCnt h
  constructor
  · rintro ⟨h1, h2⟩
    have c1 : 0 < s.countP (voteMatch u p VOTE_UP) :=
      List.countP_pos_iff.mpr (List.any_eq_true.mp h1)
    have c2 : 0 < s.countP (voteMatch u p VOTE_DOWN) :=
      List.countP_pos_iff.mpr (List.any_eq_true.mp h2)
    have := hinv u p
    unfold pairCnt at this
    omega
  · intro h2
    have c2 : 0 < s.countP (voteMatch u p VOTE_DOWN) :=
      List.countP_pos_iff.mpr (List.any_eq_true.mp h2)
    have hinvup := hinv u p
    unfold pairCnt at hinvup
    have hup0 : s.countP (voteMatch u p VOTE_UP) = 0 := by omega
    have hguard : get_vote u p VOTE_UP s = none := by
      rw [get_vote, List.find?_eq_none]
      intro v hv hm
      have : 0 < s.countP (voteMatch u p VOTE_UP) :=
        List.countP_pos_iff.mpr ⟨v, hv, hm⟩
      omega
    have hfound : (s.find? (voteMatch u p VOTE_DOWN)).isSome = true :=
      List.find?_isSome.mpr (List.any_eq_true.mp h2)
    have hfs : ∃ v, get_vote u p VOTE_DOWN s = some v := by
      unfold get_vote
      exact Option.isSome_iff_exists.mp hfound
    obtain ⟨v, hf⟩ := hfs
    have hrem := countP_remove_found u p VOTE_DOWN s v hf
    rw [cast_vote_some u p VOTE_UP VOTE_DOWN s hguard rfl]
    rw [List.any_eq_false]
    intro x hx
    have hcnt : (add_vote u p VOTE_UP ((remove_vote u p VOTE_DOWN s).1)).countP
        (voteMatch u p VOTE_DOWN) = 0 := by
      have hne : ¬(u = u ∧ p = p ∧ VOTE_UP = VOTE_DOWN) := fun hc => absurd hc.2.2 (by decide)
      rw [countP_add_vote, if_neg hne]
      omega
    have := List.countP_eq_zero.mp hcnt x hx
    exact this

/-- Witness for C9 at the state obtained by casting a single downvote. -/
theorem opposing_votes_exclusive_witness :
    (¬((cast_vote 0 0 VOTE_DOWN []).any (voteMatch 0 0 VOTE_UP) = true ∧
        (cast_vote 0 0 VOTE_DOWN []).any (voteMatch 0 0 VOTE_DOWN) = true)) ∧
    ((cast_vote 0 0 VOTE_DOWN []).any (voteMatch 0 0 VOTE_DOWN) = true →
        (cast_vote 0 0 VOTE_UP (cast_vote 0 0 VOTE_DOWN [])).any
          (voteMatch 0 0 VOTE_DOWN) = false) :=
  opposing_votes_exclusive (cast_vote 0 0 VOTE_DOWN [])
    (Reachable.cast 0 0 VOTE_DOWN Reachable.init) 0 0

end Biostar
